import Mathlib

/-
Verification development for the TAZ-BOT trading agent.

The Rust modules under src/src/modules are shallowly embedded below.
Machine integers (U256, u64) are modelled as Nat with explicit bounds:
Nat subtraction is truncated at zero, which is exactly U256::saturating_sub;
U256 addition, which panics on overflow in the source (the uint crate always
panics, in every build profile), is modelled as an Option that is none on
overflow; the u64 delay counter of the retry loops, which the source doubles
with a plain `delay *= 2`, is modelled with wrap-around (`% 2^64`), the
release-profile semantics of Rust integer overflow.

Floating-point appears in the source only inside the loan-sizing helpers
(`calculate_dynamic_loan_amount`), always in the shape
`(x.low_u64() as f64 * (1.0 - slippage) - ...) as u64`.  Those helpers are
embedded at slippage = 0.0 (so the factor is exactly 1.0) and applied only to
values below 2^53, the regime in which every f64 step of the source computes
the exact integer result; a Rust float-to-integer `as` cast saturates, so a
negative intermediate becomes 0, which Nat subtraction reproduces.
-/

namespace TazBot

/-- Modulus of the 256-bit unsigned integer type U256. -/
def U256MOD : Nat := 2 ^ 256

/-- Modulus of the 64-bit unsigned integer type u64. -/
def U64MOD : Nat := 2 ^ 64

/-- Embedding of `U256::low_u64`: the low 64 bits of a 256-bit value. -/
def low_u64 (x : Nat) : Nat := x % U64MOD

/-- Embedding of `U256::saturating_sub`; Nat subtraction is already clamped at
zero, exactly the saturating semantics. -/
def satSub (a b : Nat) : Nat := a - b

/-- Embedding of `U256` addition with `+`, which panics on overflow in the
uint crate (in every build profile); `none` models the panic. -/
def addU256 (a b : Nat) : Option Nat :=
if a + b < U256MOD then some (a + b) else none

/-- Outcome of one execution attempt inside a retry loop.  The source
distinguishes these only in its log line: a failed contract call (an on-chain
revert surfaces as `ContractError` from `.call`) and an RPC/network failure
both land in the same `Err(e)` arm. -/
inductive AttemptOutcome
| success
| networkError
| contractRevert
deriving DecidableEq, Repr

/-- Whether an attempt outcome is the `Ok` arm of the source's `match`. -/
def AttemptOutcome.isSuccess : AttemptOutcome → Bool
| .success => true
| .networkError => false
| .contractRevert => false

/-- Result of a whole retry loop: either `Ok(())` or `Err(RetriesExceeded)`,
the only two values the `*_with_retry` functions return. -/
inductive RetryResult
| ok
| retriesExceeded
deriving DecidableEq, Repr

/-- Embedding of the retry loop shared verbatim by
`arbitrage::execute_arbitrage_with_retry`,
`flashloan::execute_flashloan_with_retry`,
`sandwich::execute_sandwich_attack_with_retry`,
`frontrunning::execute_frontrunning_with_retry` and
`liquidation::execute_liquidation_with_retry`:

  let mut attempts = 0; let mut delay = 1;
  while attempts < max_retries {
    match execute(...) { Ok(_) => return Ok(()),
      Err(e) => { attempts += 1; sleep(delay); delay *= 2; } } }
  Err(RetriesExceeded)

`outcome n` is the result of the (n+1)-th execution; `fuel` is the number of
loop iterations still allowed (`max_retries - attempts`), which makes the
recursion structural.  Returns the final result, the number of executions
performed, and the list of delays slept (in seconds), in order. -/
def retryGo (outcome : Nat → AttemptOutcome) :
    Nat → Nat → Nat → List Nat → RetryResult × Nat × List Nat
| 0, attempts, _, delays => (.retriesExceeded, attempts, delays)
| fuel + 1, attempts, delay, delays =>
match outcome attempts with
| .success => (.ok, attempts + 1, delays)
| .networkError => retryGo outcome fuel (attempts + 1) (delay * 2 % U64MOD) (delays ++ [delay])
| .contractRevert => retryGo outcome fuel (attempts + 1) (delay * 2 % U64MOD) (delays ++ [delay])

/-- The retry loop as entered from the top: `attempts = 0`, `delay = 1`. -/
def execute_with_retry (outcome : Nat → AttemptOutcome) (max_retries : Nat) :
    RetryResult × Nat × List Nat :=
retryGo outcome max_retries 0 1 []

/-- An execution environment in which every attempt fails with an RPC/network
error. -/
def allNetworkErrors : Nat → AttemptOutcome := fun _ => .networkError

/-- An execution environment whose first attempt is an on-chain revert and
whose later attempts would succeed. -/
def revertThenSuccess : Nat → AttemptOutcome :=
fun n => if n = 0 then .contractRevert else .success

/-- DEX venues addressed by the trading modules. -/
inductive Venue
| uniswap
| sushiswap
deriving DecidableEq, Repr

/-- One independently-awaited chain-client operation.  Each constructor other
than `mempoolQuery` corresponds to one `.call(...).await` on a contract in the
source, i.e. one separately submitted and separately confirmable on-chain
transaction; `mempoolQuery` is a read-side pending-transaction lookup. -/
inductive ChainOp
| flashLoanCall (amount : Nat)
| swapCall (venue : Venue) (amount_in : Nat)
| repayCall (amount : Nat)
| mempoolQuery (tx_hash : Nat)
deriving DecidableEq, Repr

/-- Whether an operation is the Aave `repay` call. -/
def ChainOp.isRepay : ChainOp → Bool
| .repayCall _ => true
| _ => false

/-- Whether an operation is a read-side mempool lookup. -/
def ChainOp.isMempoolQuery : ChainOp → Bool
| .mempoolQuery _ => true
| _ => false

/-- Whether an operation submits a transaction (every contract `.call`). -/
def ChainOp.isSubmission : ChainOp → Bool
| .mempoolQuery _ => false
| _ => true

/-- One item observed by `sandwich::monitor_mempool_for_large_transactions`
while draining the pending-transaction subscription stream. -/
inductive MempoolItem
| streamErr
| fetchErr
| missing
| tx (sender value : Nat)
deriving DecidableEq, Repr

/-- Error type of the sandwich module, restricted to the variant the embedded
functions produce themselves. -/
inductive SandwichError
| NoLargeTrades
deriving DecidableEq, Repr

namespace arbitrage

/-- Embedding of `arbitrage::is_profitable`: `profit > gas_fees`. -/
def is_profitable (profit gas_fees : Nat) : Bool :=
decide (gas_fees < profit)

/-- Embedding of `arbitrage::calculate_dynamic_loan_amount` specialised to
`slippage = 0.0`:

  let slippage_factor = 1.0 - slippage;
  let max_loan_amount = (expected_profit.low_u64() as f64 * slippage_factor) as u64;
  U256::from(max_loan_amount).saturating_sub(gas_fee)

With `slippage_factor = 1.0` and `expected_profit.low_u64() < 2^53`, every
f64 step is exact, so the function is the saturating subtraction applied to
the low 64 bits of `expected_profit` - the 256-bit profit is truncated before
any arithmetic happens. -/
def calculate_dynamic_loan_amount_s0 (expected_profit gas_fee : Nat) : Nat :=
satSub (low_u64 expected_profit) gas_fee

/-- Embedding of `arbitrage::execute_arbitrage_with_retry` (the loop is the
shared retry loop; the per-attempt body is abstracted into `outcome`). -/
def execute_arbitrage_with_retry (outcome : Nat → AttemptOutcome) (max_retries : Nat) :
    RetryResult × Nat × List Nat :=
execute_with_retry outcome max_retries

/-- Embedding of the loop structure of `arbitrage::scan_for_opportunities`:

  loop { spawn check_arbitrage_opportunity for every pair;
         join_all; sleep(check_interval); }

`check_results n` is the list of per-pair check outcomes of iteration n; an
`Err` is logged (`error!`) inside the spawned task and never propagated, and
nothing in the body breaks or returns, so the fueled interpreter can never
produce a terminal value (`some`). -/
def scan_for_opportunities_fueled (check_results : Nat → List (Except Unit Unit)) :
    Nat → Option Unit
| 0 => none
| fuel + 1 =>
match check_results fuel with
| _ => scan_for_opportunities_fueled check_results fuel

end arbitrage

namespace flashloan

/-- Embedding of `flashloan::is_profitable`: `profit > gas_fees`. -/
def is_profitable (profit gas_fees : Nat) : Bool :=
decide (gas_fees < profit)

/-- Embedding of `flashloan::calculate_dynamic_loan_amount` specialised to
`slippage = 0.0`; the source is textually identical to the arbitrage version
(see `arbitrage.calculate_dynamic_loan_amount_s0`). -/
def calculate_dynamic_loan_amount_s0 (expected_profit gas_fee : Nat) : Nat :=
satSub (low_u64 expected_profit) gas_fee

/-- Embedding of `flashloan::execute_flashloan_with_retry`. -/
def execute_flashloan_with_retry (outcome : Nat → AttemptOutcome) (max_retries : Nat) :
    RetryResult × Nat × List Nat :=
execute_with_retry outcome max_retries

/-- Embedding of the loop structure of
`flashloan::scan_for_flashloan_opportunities`:

  loop { if let Ok(liquidity) = get_liquidity_data(...) { maybe execute,
           logging an execution failure }
         sleep(check_interval); }

`liquidity n` is the result of the liquidity read of iteration n.  A failed
read is silently skipped (the `if let Ok` has no else arm), a failed execution
is logged, and nothing in the body breaks or returns. -/
def scan_for_flashloan_opportunities_fueled (liquidity : Nat → Except Unit Nat) :
    Nat → Option Unit
| 0 => none
| fuel + 1 =>
match liquidity fuel with
| .ok _ => scan_for_flashloan_opportunities_fueled liquidity fuel
| .error _ => scan_for_flashloan_opportunities_fueled liquidity fuel

end flashloan

namespace frontrunning

/-- Embedding of `frontrunning::is_profitable`: `profit > gas_fees`. -/
def is_profitable (profit gas_fees : Nat) : Bool :=
decide (gas_fees < profit)

/-- Embedding of `frontrunning::calculate_potential_profit`:

  let potential_profit =
    transaction_value - (transaction_value * U256::from_f64(0.01).unwrap());
  potential_profit.saturating_sub(gas_fee_limit)

U256 is an integer type, so converting 0.01 to it truncates to 0; the first
subtraction therefore subtracts 0 and cannot underflow, and the final
subtraction is saturating by construction. -/
def calculate_potential_profit (transaction_value gas_fee_limit : Nat) : Nat :=
satSub (transaction_value - transaction_value * 0) gas_fee_limit

/-- Embedding of `frontrunning::execute_frontrunning_with_retry`. -/
def execute_frontrunning_with_retry (outcome : Nat → AttemptOutcome) (max_retries : Nat) :
    RetryResult × Nat × List Nat :=
execute_with_retry outcome max_retries

/-- Embedding of the chain-client operations `frontrunning::execute_frontrunning`
awaits, in order: it loads its config and then performs exactly one contract
call, the front-run `swapExactTokensForTokens` on the Uniswap router with the
target transaction's value.  It performs no mempool lookup of any kind. -/
def execute_frontrunning_calls (target_value : Nat) : List ChainOp :=
[ChainOp.swapCall .uniswap target_value]

end frontrunning

namespace sandwich

/-- Embedding of `sandwich::is_profitable`:

  expected_profit > (flashloan_amount + gas_fee)

The U256 addition panics on overflow (`none`); otherwise the comparison is
returned. -/
def is_profitable (flashloan_amount gas_fee expected_profit : Nat) : Option Bool :=
match addU256 flashloan_amount gas_fee with
| some s => some (decide (s < expected_profit))
| none => none

/-- Embedding of `sandwich::calculate_dynamic_loan_amount`:

  let estimated_profit = amount_in.low_u64() as f64 * (1.0 - slippage);
  let max_loan_amount = (estimated_profit - gas_fee.low_u64() as f64) as u64;
  U256::from(max_loan_amount).max(min_profit)

`max_loan_amount` abstracts the f64 computation: whatever `amount_in`,
`gas_fee` and `slippage` are, the float-to-u64 `as` cast saturates, so it is
some value in [0, 2^64).  The function's final and only integer step is the
`.max(min_profit)` clamp. -/
def calculate_dynamic_loan_amount (max_loan_amount min_profit : Nat) : Nat :=
Nat.max max_loan_amount min_profit

/-- Embedding of `sandwich::calculate_dynamic_loan_amount` specialised to
`slippage = 0.0` and exact-f64 inputs (low 64 bits below 2^53), where the
float part computes exactly `satSub (low_u64 amount_in) gas_fee`. -/
def calculate_dynamic_loan_amount_s0 (amount_in gas_fee min_profit : Nat) : Nat :=
Nat.max (satSub (low_u64 amount_in) gas_fee) min_profit

/-- Embedding of `sandwich::execute_sandwich_attack_with_retry`. -/
def execute_sandwich_attack_with_retry (outcome : Nat → AttemptOutcome) (max_retries : Nat) :
    RetryResult × Nat × List Nat :=
execute_with_retry outcome max_retries

/-- Embedding of `sandwich::monitor_mempool_for_large_transactions`: drain the
pending-transaction subscription stream; a stream error is logged and the loop
continues after a 1 s sleep, a failed or empty transaction lookup is skipped,
and the first transaction whose value reaches `min_tx_value` makes the
function return `Ok(transaction.from)`.  An exhausted stream yields
`Err(NoLargeTrades)`. -/
def monitor_mempool_for_large_transactions :
    List MempoolItem → Nat → Except SandwichError Nat
| [], _ => .error .NoLargeTrades
| .tx sender value :: rest, min_tx_value =>
if min_tx_value ≤ value then .ok sender
else monitor_mempool_for_large_transactions rest min_tx_value
| .streamErr :: rest, min_tx_value =>
monitor_mempool_for_large_transactions rest min_tx_value
| .fetchErr :: rest, min_tx_value =>
monitor_mempool_for_large_transactions rest min_tx_value
| .missing :: rest, min_tx_value =>
monitor_mempool_for_large_transactions rest min_tx_value

/-- The sender of the first stream item that is a transaction whose value
reaches the threshold, if any (specification-side helper used to characterise
the monitor). -/
def first_large_sender (stream : List MempoolItem) (min_tx_value : Nat) : Option Nat :=
stream.findSome? fun item =>
match item with
| .tx sender value => if min_tx_value ≤ value then some sender else none
| _ => none

/-- Embedding of the chain-client operations of `sandwich::request_flash_loan`:
one awaited `flashLoan` contract call, submitted and confirmed on its own. -/
def request_flash_loan_calls (amount : Nat) : List ChainOp :=
[ChainOp.flashLoanCall amount]

/-- Embedding of the chain-client operations of
`sandwich::execute_sandwich_attack`: the front-run swap on Uniswap and the
back-run swap on Sushiswap, each a separately awaited contract call; no
mempool lookup is performed before either submission. -/
def execute_sandwich_attack_calls (flashloan_amount : Nat) : List ChainOp :=
[ChainOp.swapCall .uniswap flashloan_amount, ChainOp.swapCall .sushiswap flashloan_amount]

/-- Embedding of `repay_amount = flashloan_amount + (flashloan_amount / 1000)`
from `sandwich::repay_flash_loan` (for amounts where the U256 sum fits). -/
def repay_amount (flashloan_amount : Nat) : Nat :=
flashloan_amount + flashloan_amount / 1000

/-- Embedding of the chain-client operations of `sandwich::repay_flash_loan`:
one awaited `repay` contract call, submitted and confirmed on its own. -/
def repay_flash_loan_calls (flashloan_amount : Nat) : List ChainOp :=
[ChainOp.repayCall (repay_amount flashloan_amount)]

end sandwich

namespace hft

/-- Embedding of the chain-client operations of `hft::request_flash_loan`:
one awaited `flashLoan` contract call. -/
def request_flash_loan_calls (amount : Nat) : List ChainOp :=
[ChainOp.flashLoanCall amount]

/-- Embedding of the chain-client operations of `hft::execute_trade`: one
awaited `swapExactTokensForTokens` on the Uniswap router with the hard-coded
`amount_in = 1000`. -/
def execute_trade_calls : List ChainOp :=
[ChainOp.swapCall .uniswap 1000]

/-- Embedding of the chain-client operations of `hft::execute_hft`: it first
awaits `request_flash_loan` (one submission) and then awaits `execute_trade`
(a second, independent submission).  No repayment call occurs anywhere in the
hft module. -/
def execute_hft_calls (flashloan_amount : Nat) : List ChainOp :=
request_flash_loan_calls flashloan_amount ++ execute_trade_calls

end hft

namespace liquidation

/-- The ETH sentinel address matched by `get_chainlink_price_feed_address`. -/
def ETH_ADDRESS : Nat := 0xEeeeeEeeeEeEeeEeEeEeeEEEeeeeEeeeeeeeEEeE

/-- The DAI token address matched by `get_chainlink_price_feed_address`. -/
def DAI_ADDRESS : Nat := 0x6B175474E89094C44Da98b954EedeAC495271d0F

/-- The USDC token address matched by `get_chainlink_price_feed_address`. -/
def USDC_ADDRESS : Nat := 0xA0b86991c6218b36c1d19D4a2e9Eb0cE3606EB48

/-- Chainlink ETH/USD feed address returned for ETH. -/
def ETH_USD_FEED : Nat := 0x5f4ec3df9cbd43714fe2740f5e3616155c5b8419

/-- Chainlink DAI/USD feed address returned for DAI. -/
def DAI_USD_FEED : Nat := 0xAed0c38402a5d19df6E4c03F4E2DceD6e29c1ee9

/-- Chainlink USDC/USD feed address returned for USDC. -/
def USDC_USD_FEED : Nat := 0x8fFfFfd4AfB6115b954Bd326cbe7B4BA576818f6

/-- Error type of the liquidation module, restricted to the variant
`get_chainlink_price_feed_address` produces itself: `Web3Error` carries the
decoder message string (omitted here). -/
inductive LiquidationError
| Web3Error
deriving DecidableEq, Repr

/-- Embedding of `Liquidation::get_chainlink_price_feed_address`: a match with
guards on the asset address, equivalent to this if-chain; any address other
than the three supported ones yields the `Unsupported asset` error. -/
def get_chainlink_price_feed_address (asset : Nat) : Except LiquidationError Nat :=
if asset = ETH_ADDRESS then .ok ETH_USD_FEED
else if asset = DAI_ADDRESS then .ok DAI_USD_FEED
else if asset = USDC_ADDRESS then .ok USDC_USD_FEED
else .error .Web3Error

end liquidation

/-- Settlement amount as section 3 of the specification states it, specialised
to slippage s = 0: floor(expected_profit * (1 - s)) saturating-minus gas_fee,
carried out over the full 256-bit value of expected_profit. -/
def specSettlementAmount_s0 (expected_profit gas_fee : Nat) : Nat :=
satSub expected_profit gas_fee

/-- The retry loop performs at most `attempts + fuel` executions. -/
lemma retryGo_attempts_le (outcome : Nat → AttemptOutcome) :
    ∀ fuel attempts delay delays,
      (retryGo outcome fuel attempts delay delays).2.1 ≤ attempts + fuel := by
  intro fuel
  induction fuel with
  | zero => intro attempts delay delays; simp [retryGo]
  | succ f ih =>
    intro attempts delay delays
    rw [retryGo]
    cases h : outcome attempts with
    | success =>
      show attempts + 1 ≤ attempts + (f + 1)
      omega
    | networkError =>
      calc (retryGo outcome f (attempts + 1) (delay * 2 % U64MOD) (delays ++ [delay])).2.1
          ≤ attempts + 1 + f := ih _ _ _
        _ = attempts + (f + 1) := by omega
    | contractRevert =>
      calc (retryGo outcome f (attempts + 1) (delay * 2 % U64MOD) (delays ++ [delay])).2.1
          ≤ attempts + 1 + f := ih _ _ _
        _ = attempts + (f + 1) := by omega

/-- Closed form of the retry loop when every attempt fails with a network
error: it exhausts the fuel and sleeps the doubling (u64-wrapped) delays. -/
lemma retryGo_allNetworkErrors :
    ∀ fuel attempts delay delays, delay < U64MOD →
      retryGo allNetworkErrors fuel attempts delay delays
        = (.retriesExceeded, attempts + fuel,
           delays ++ (List.range fuel).map fun k => delay * 2 ^ k % U64MOD) := by
  intro fuel
  induction fuel with
  | zero => intro attempts delay delays hd; simp [retryGo]
  | succ f ih =>
    intro attempts delay delays hd
    rw [retryGo]
    show retryGo allNetworkErrors f (attempts + 1) (delay * 2 % U64MOD) (delays ++ [delay]) = _
    rw [ih (attempts + 1) (delay * 2 % U64MOD) (delays ++ [delay])
        (Nat.mod_lt _ (by simp [U64MOD]))]
    have hmap : ∀ k : Nat, delay * 2 % U64MOD * 2 ^ k % U64MOD = delay * 2 ^ (k + 1) % U64MOD := by
      intro k
      rw [Nat.mod_mul_mod]
      congr 1
      ring
    simp only [Prod.mk.injEq]
    refine ⟨trivial, by omega, ?_⟩
    rw [List.range_succ_eq_map, List.map_cons, List.map_map, List.append_assoc]
    simp only [hmap, pow_zero, Nat.mul_one, Nat.mod_eq_of_lt hd, List.singleton_append]
    rfl

/-- The retry loop cannot distinguish two attempt environments that agree on
which attempts succeed. -/
lemma retryGo_congr (o o' : Nat → AttemptOutcome)
    (h : ∀ n, (o n).isSuccess = (o' n).isSuccess) :
    ∀ fuel attempts delay delays,
      retryGo o fuel attempts delay delays = retryGo o' fuel attempts delay delays := by
  intro fuel
  induction fuel with
  | zero => intro attempts delay delays; rfl
  | succ f ih =>
    intro attempts delay delays
    rw [retryGo, retryGo]
    have hs := h attempts
    cases ho : o attempts <;> cases ho' : o' attempts <;>
      simp [ho, ho', AttemptOutcome.isSuccess] at hs ⊢ <;> exact ih _ _ _

/-- The mempool monitor returns the sender of the first sufficiently large
transaction in the stream, and NoLargeTrades if there is none. -/
lemma monitor_eq_first_large_sender :
    ∀ (stream : List MempoolItem) (min_tx_value : Nat),
      sandwich.monitor_mempool_for_large_transactions stream min_tx_value
        = match sandwich.first_large_sender stream min_tx_value with
          | some sender => .ok sender
          | none => .error .NoLargeTrades := by
  intro stream min_tx_value
  induction stream with
  | nil => rfl
  | cons item rest ih =>
    cases item with
    | streamErr =>
      simp only [sandwich.monitor_mempool_for_large_transactions,
        sandwich.first_large_sender, List.findSome?_cons] at ih ⊢
      exact ih
    | fetchErr =>
      simpa [sandwich.monitor_mempool_for_large_transactions,
        sandwich.first_large_sender] using ih
    | missing =>
      simpa [sandwich.monitor_mempool_for_large_transactions,
        sandwich.first_large_sender] using ih
    | tx sender value =>
      by_cases hv : min_tx_value ≤ value
      · simp [sandwich.monitor_mempool_for_large_transactions,
          sandwich.first_large_sender, hv]
      · simpa [sandwich.monitor_mempool_for_large_transactions,
          sandwich.first_large_sender, hv] using ih

/-- C1: the claim says the borrow and the repayment are the first and last
steps of one single atomic submission.  Evaluating the source at
flashloan_amount = 2000 instead shows: `hft::execute_hft` awaits the
`flashLoan` borrow as one submission and the trade as a second, independent
submission, with no repayment call anywhere in its trace; and in the sandwich
module the borrow (`request_flash_loan`) and the repayment
(`repay_flash_loan`) are each a separate, independently-confirmable
submission, with the two independently-awaited trade submissions of
`execute_sandwich_attack` between them, four submissions in all. -/
theorem C1_borrow_and_repay_are_separate_submissions :
    hft.execute_hft_calls 2000
      = [ChainOp.flashLoanCall 2000, ChainOp.swapCall .uniswap 1000]
    ∧ ((hft.execute_hft_calls 2000).all fun op => !op.isRepay) = true
    ∧ sandwich.request_flash_loan_calls 2000 = [ChainOp.flashLoanCall 2000]
    ∧ sandwich.repay_flash_loan_calls 2000 = [ChainOp.repayCall 2002]
    ∧ (sandwich.request_flash_loan_calls 2000 ++ sandwich.execute_sandwich_attack_calls 2000
        ++ sandwich.repay_flash_loan_calls 2000).length = 4 :=
  ⟨rfl, rfl, rfl, rfl, rfl⟩

/-- C2 (amended): the two-argument profitability checks of the arbitrage,
flashloan and frontrunning modules accept exactly when the gain strictly
exceeds the cost, are total (no panic is possible), and agree with the
saturating-subtraction formulation; the three-argument sandwich check accepts
exactly when expected_profit strictly exceeds flashloan_amount + gas_fee
whenever that sum fits in 256 bits, but panics on addition overflow when it
does not. -/
theorem C2_profitability_accepts_iff_gain_exceeds_cost
    (g c f gas e : Nat) :
    (arbitrage.is_profitable g c = true ↔ c < g)
    ∧ (flashloan.is_profitable g c = true ↔ c < g)
    ∧ (frontrunning.is_profitable g c = true ↔ c < g)
    ∧ arbitrage.is_profitable g c = decide (0 < satSub g c)
    ∧ (f + gas < U256MOD → sandwich.is_profitable f gas e = some (decide (f + gas < e)))
    ∧ (U256MOD ≤ f + gas → sandwich.is_profitable f gas e = none) := by
  refine ⟨by simp [arbitrage.is_profitable], by simp [flashloan.is_profitable],
    by simp [frontrunning.is_profitable], ?_, ?_, ?_⟩
  · rw [arbitrage.is_profitable, decide_eq_decide]
    simp only [satSub]
    omega
  · intro h
    simp [sandwich.is_profitable, addU256, h]
  · intro h
    simp [sandwich.is_profitable, addU256, Nat.not_lt.mpr h]

/-- Witness for C2: the sandwich check evaluated where the cost sum fits, and
where it overflows. -/
theorem C2_profitability_accepts_iff_gain_exceeds_cost_witness :
    sandwich.is_profitable 3 4 10 = some true
    ∧ sandwich.is_profitable (U256MOD - 1) 1 0 = none := by
  constructor
  · have h := (C2_profitability_accepts_iff_gain_exceeds_cost 5 3 3 4 10).2.2.2.2.1
      (by simp [U256MOD])
    simpa using h
  · have hpos : 0 < U256MOD := by simp [U256MOD]
    exact (C2_profitability_accepts_iff_gain_exceeds_cost 5 3 (U256MOD - 1) 1 0).2.2.2.2.2
      (by omega)

/-- Counterexample to C2 as stated: a candidate whose cost exceeds the gain is
not always rejected — with flashloan_amount = 2^256 - 1 and gas_fee = 1 the
sandwich profitability check panics on the overflow of
flashloan_amount + gas_fee instead of rejecting. -/
theorem C2_sandwich_check_panics_on_huge_cost :
    sandwich.is_profitable (U256MOD - 1) 1 5 = none := by
  have hpos : 0 < U256MOD := by simp [U256MOD]
  have h : ¬ (U256MOD - 1 + 1 < U256MOD) := by omega
  simp [sandwich.is_profitable, addU256, h]

/-- C3 (amended): for every attempt environment the retry loop performs at
most max_retries executions; when every attempt fails it returns
RetriesExceeded after exactly max_retries executions, sleeping the doubling
delays 2^k mod 2^64 seconds (base 1 s); the schedule is strictly increasing
for the first 64 retries, but there is no configured maximum delay — the
doubling continues until the 64-bit counter wraps to zero. -/
theorem C3_retry_is_bounded_but_backoff_is_uncapped
    (outcome : Nat → AttemptOutcome) (m : Nat) :
    (arbitrage.execute_arbitrage_with_retry outcome m).2.1 ≤ m
    ∧ flashloan.execute_flashloan_with_retry allNetworkErrors m
        = (.retriesExceeded, m, (List.range m).map fun k => 2 ^ k % U64MOD)
    ∧ (m ≤ 64 →
        List.Pairwise (· < ·)
          (sandwich.execute_sandwich_attack_with_retry allNetworkErrors m).2.2) := by
  have hall := retryGo_allNetworkErrors m 0 1 [] (by simp [U64MOD])
  refine ⟨?_, ?_, ?_⟩
  · simpa using retryGo_attempts_le outcome m 0 1 []
  · rw [flashloan.execute_flashloan_with_retry, execute_with_retry, hall]
    simp
  · intro hm
    rw [sandwich.execute_sandwich_attack_with_retry, execute_with_retry, hall]
    simp only [List.nil_append, Nat.zero_add, Nat.one_mul, List.pairwise_map]
    refine (List.pairwise_lt_range m).imp_of_mem ?_
    intro a b ha hb hab
    have ha64 : a < 64 := lt_of_lt_of_le (List.mem_range.mp ha) hm
    have hb64 : b < 64 := lt_of_lt_of_le (List.mem_range.mp hb) hm
    have hu : U64MOD = 2 ^ 64 := rfl
    have hma : 2 ^ a % U64MOD = 2 ^ a :=
      Nat.mod_eq_of_lt (by rw [hu]; exact Nat.pow_lt_pow_right one_lt_two ha64)
    have hmb : 2 ^ b % U64MOD = 2 ^ b :=
      Nat.mod_eq_of_lt (by rw [hu]; exact Nat.pow_lt_pow_right one_lt_two hb64)
    rw [hma, hmb]
    exact Nat.pow_lt_pow_right one_lt_two hab

/-- Witness for C3: three failing attempts, delays 1, 2, 4 seconds, then
RetriesExceeded after exactly three executions. -/
theorem C3_retry_is_bounded_but_backoff_is_uncapped_witness :
    (arbitrage.execute_arbitrage_with_retry allNetworkErrors 3).2.1 ≤ 3
    ∧ flashloan.execute_flashloan_with_retry allNetworkErrors 3
        = (.retriesExceeded, 3, [1, 2, 4])
    ∧ List.Pairwise (· < ·)
        (sandwich.execute_sandwich_attack_with_retry allNetworkErrors 3).2.2 := by
  have h := C3_retry_is_bounded_but_backoff_is_uncapped allNetworkErrors 3
  refine ⟨h.1, ?_, h.2.2 (by norm_num)⟩
  rw [h.2.1]
  rfl

/-- Counterexample to C3 as stated: with 66 failing attempts the delay slept
after the 64th failure is 2^63 seconds and the delay after the 65th failure is
0 seconds — the u64 delay wraps, so the schedule is neither non-decreasing nor
capped at any configured maximum. -/
theorem C3_backoff_wraps_instead_of_capping :
    ((sandwich.execute_sandwich_attack_with_retry allNetworkErrors 66).2.2.get? 63
       = some (2 ^ 63))
    ∧ ((sandwich.execute_sandwich_attack_with_retry allNetworkErrors 66).2.2.get? 64
       = some 0) :=
  ⟨rfl, rfl⟩

/-- C4 (amended): an attempt that fails with an on-chain revert is not
terminal — the retry loop inspects only whether an attempt succeeded, so two
environments agreeing on which attempts succeed produce identical runs, and a
contract revert is retried exactly like a pre-submission network failure. -/
theorem C4_revert_retried_like_network_error
    (o o' : Nat → AttemptOutcome) (m : Nat)
    (h : ∀ n, (o n).isSuccess = (o' n).isSuccess) :
    arbitrage.execute_arbitrage_with_retry o m = arbitrage.execute_arbitrage_with_retry o' m
    ∧ frontrunning.execute_frontrunning_with_retry o m
        = frontrunning.execute_frontrunning_with_retry o' m := by
  have hc := retryGo_congr o o' h m 0 1 []
  exact ⟨hc, hc⟩

/-- Witness for C4: all-revert and all-network-error environments produce the
same two-attempt run. -/
theorem C4_revert_retried_like_network_error_witness :
    frontrunning.execute_frontrunning_with_retry (fun _ => .contractRevert) 2
      = frontrunning.execute_frontrunning_with_retry (fun _ => .networkError) 2 :=
  (C4_revert_retried_like_network_error (fun _ => .contractRevert)
    (fun _ => .networkError) 2 (fun _ => rfl)).2

/-- Counterexample to C4 as stated: the first attempt fails with an on-chain
revert, yet the plan is resubmitted — the run performs a second execution and
returns Ok. -/
theorem C4_onchain_revert_is_resubmitted :
    revertThenSuccess 0 = .contractRevert
    ∧ frontrunning.execute_frontrunning_with_retry revertThenSuccess 3 = (.ok, 2, [1]) :=
  ⟨rfl, rfl⟩

/-- C5: the claim says the settlement loan amount is computed over the full
256-bit value of expected_profit.  Evaluating the source (at slippage 0,
where every floating-point step is exact) at expected_profit = 2^64 and
gas_fee = 0 instead gives 0, because `calculate_dynamic_loan_amount` truncates
the profit to its low 64 bits via `low_u64` before the arithmetic; the
specification's exact integer computation gives 2^64. -/
theorem C5_settlement_truncates_gain_to_64_bits :
    arbitrage.calculate_dynamic_loan_amount_s0 U64MOD 0 = 0
    ∧ flashloan.calculate_dynamic_loan_amount_s0 U64MOD 0 = 0
    ∧ specSettlementAmount_s0 U64MOD 0 = U64MOD := by
  refine ⟨?_, ?_, rfl⟩ <;>
    simp [arbitrage.calculate_dynamic_loan_amount_s0,
      flashloan.calculate_dynamic_loan_amount_s0, low_u64, satSub]

/-- C6 (amended): the arbitrage and flashloan polling loops never terminate —
no sequence of per-candidate failures or failed liquidity reads produces a
terminal value — and a failed item in the sandwich monitor's subscription
stream is skipped rather than ending the stream; but the sandwich mempool
monitor does return: it yields the sender of the first transaction whose
value reaches the threshold, and NoLargeTrades if the stream ends. -/
theorem C6_scan_loops_never_terminate_but_sandwich_monitor_returns :
    (∀ (check_results : Nat → List (Except Unit Unit)) (fuel : Nat),
        arbitrage.scan_for_opportunities_fueled check_results fuel = none)
    ∧ (∀ (liquidity : Nat → Except Unit Nat) (fuel : Nat),
        flashloan.scan_for_flashloan_opportunities_fueled liquidity fuel = none)
    ∧ (∀ (stream : List MempoolItem) (min_tx_value : Nat),
        sandwich.monitor_mempool_for_large_transactions stream min_tx_value
          = match sandwich.first_large_sender stream min_tx_value with
            | some sender => .ok sender
            | none => .error .NoLargeTrades) := by
  refine ⟨?_, ?_, monitor_eq_first_large_sender⟩
  · intro cr fuel
    induction fuel with
    | zero => rfl
    | succ f ih => exact ih
  · intro liq fuel
    induction fuel with
    | zero => rfl
    | succ f ih =>
      rw [flashloan.scan_for_flashloan_opportunities_fueled]
      cases hliq : liq f with
      | ok v => exact ih
      | error e => exact ih

/-- Counterexample to C6 as stated: the sandwich scanner survives one failed
poll but then terminates, returning the sender of the first large transaction
it emits. -/
theorem C6_sandwich_scanner_terminates_on_first_hit :
    sandwich.monitor_mempool_for_large_transactions
        [MempoolItem.streamErr, MempoolItem.tx 7 10] 5 = .ok 7 :=
  rfl

/-- C7 (amended): the executor performs no subject-liveness re-check at all —
the chain-operation traces of `execute_frontrunning` and
`execute_sandwich_attack` contain a trade submission and contain no mempool
query, for every target value; the plan is submitted even when the subject
transaction is no longer pending. -/
theorem C7_executor_never_rechecks_subject_liveness (v : Nat) :
    ((frontrunning.execute_frontrunning_calls v).all fun op => !op.isMempoolQuery) = true
    ∧ ((frontrunning.execute_frontrunning_calls v).any fun op => op.isSubmission) = true
    ∧ ((sandwich.execute_sandwich_attack_calls v).all fun op => !op.isMempoolQuery) = true
    ∧ ((sandwich.execute_sandwich_attack_calls v).any fun op => op.isSubmission) = true :=
  ⟨rfl, rfl, rfl, rfl⟩

/-- Counterexample to C7 as stated: at target value 999 the front-running
executor's whole trace is the swap submission itself; it contains no mempool
query, so no liveness re-check precedes the submission. -/
theorem C7_submission_without_liveness_check :
    frontrunning.execute_frontrunning_calls 999 = [ChainOp.swapCall .uniswap 999]
    ∧ ((frontrunning.execute_frontrunning_calls 999).all fun op => !op.isMempoolQuery) = true :=
  ⟨rfl, rfl⟩

/-- C8: the asset-to-price-feed mapping returns Ok with the configured
Chainlink feed address exactly for ETH, DAI and USDC, and returns the
Unsupported-asset error, without panicking, for every other address. -/
theorem C8_price_feed_mapping_supported_assets_only :
    liquidation.get_chainlink_price_feed_address liquidation.ETH_ADDRESS
      = .ok liquidation.ETH_USD_FEED
    ∧ liquidation.get_chainlink_price_feed_address liquidation.DAI_ADDRESS
      = .ok liquidation.DAI_USD_FEED
    ∧ liquidation.get_chainlink_price_feed_address liquidation.USDC_ADDRESS
      = .ok liquidation.USDC_USD_FEED
    ∧ ∀ asset : Nat, asset ≠ liquidation.ETH_ADDRESS → asset ≠ liquidation.DAI_ADDRESS →
        asset ≠ liquidation.USDC_ADDRESS →
        liquidation.get_chainlink_price_feed_address asset
          = .error liquidation.LiquidationError.Web3Error := by
  refine ⟨rfl, rfl, rfl, ?_⟩
  intro asset h1 h2 h3
  rw [liquidation.get_chainlink_price_feed_address, if_neg h1, if_neg h2, if_neg h3]

/-- Witness for C8: the zero address is unsupported and is rejected with the
plan-construction error. -/
theorem C8_price_feed_mapping_supported_assets_only_witness :
    liquidation.get_chainlink_price_feed_address 0
      = .error liquidation.LiquidationError.Web3Error :=
  C8_price_feed_mapping_supported_assets_only.2.2.2 0
    (by decide) (by decide) (by decide)

/-- C9: with max_retries = 0 the retry helpers of the arbitrage, flashloan and
sandwich modules perform zero executions and return RetriesExceeded at once,
whatever the attempts would have done. -/
theorem C9_zero_max_retries_yields_retries_exceeded (outcome : Nat → AttemptOutcome) :
    arbitrage.execute_arbitrage_with_retry outcome 0 = (.retriesExceeded, 0, [])
    ∧ flashloan.execute_flashloan_with_retry outcome 0 = (.retriesExceeded, 0, [])
    ∧ sandwich.execute_sandwich_attack_with_retry outcome 0 = (.retriesExceeded, 0, []) :=
  ⟨rfl, rfl, rfl⟩

/-- C10: the sandwich loan-sizing function never returns less than min_profit:
its final step is the `.max(min_profit)` clamp, whatever the slippage-adjusted
estimate (the abstracted float part, and the exact slippage-0 path) produced. -/
theorem C10_sandwich_loan_amount_clamped_at_min_profit
    (max_loan_amount min_profit amount_in gas_fee : Nat) :
    min_profit ≤ sandwich.calculate_dynamic_loan_amount max_loan_amount min_profit
    ∧ min_profit ≤ sandwich.calculate_dynamic_loan_amount_s0 amount_in gas_fee min_profit :=
  ⟨Nat.le_max_right _ _, Nat.le_max_right _ _⟩

end TazBot
